import Mathlib

/-!
Shallow embedding of the particle-dynamics core of the repository:

* the `Sphere` class of `src/unnamed/part_003` (force-based draft) in
  namespace `P3`;
* the `Sphere` class of `src/Sphere.js` (drag-factor draft) in namespace `SJS`;
* the `PhysicsEngine` container of `src/unnamed/part_000` in namespace `PE`.

Numbers are modelled as exact rationals.  The only irrational operations the
source performs are `Math.sqrt` (inside gl-matrix `vec3.length` and
`vec3.normalize`) and `Math.pow(0.9, dt)` (Sphere.js `dragFactor`); their
results are passed to the embedded functions as explicit oracle arguments
(`len`, `nrm`, `df`), and theorems whose conclusion depends on such a value
constrain it by a hypothesis like `IsLen v len` (`len` is the nonnegative
square root of `v · v`).
-/

/-- Component-wise rational 3-vector, modelling a gl-matrix `vec3`. -/
structure Vec3 where
  x : ℚ
  y : ℚ
  z : ℚ
deriving DecidableEq, Repr

namespace Vec3

/-- gl-matrix `vec3.add` (component-wise). -/
def add (a b : Vec3) : Vec3 := ⟨a.x + b.x, a.y + b.y, a.z + b.z⟩

/-- gl-matrix `vec3.scale` (each component multiplied by the scalar). -/
def scale (a : Vec3) (b : ℚ) : Vec3 := ⟨a.x * b, a.y * b, a.z * b⟩

/-- gl-matrix `vec3.negate`. -/
def negate (a : Vec3) : Vec3 := ⟨-a.x, -a.y, -a.z⟩

/-- gl-matrix `vec3.dot`. -/
def dot (a b : Vec3) : ℚ := a.x * b.x + a.y * b.y + a.z * b.z

/-- gl-matrix `vec3.normalize`: it computes `len = x*x + y*y + z*z` and only
when `len > 0` scales by `1 / Math.sqrt(len)`; a zero vector is returned
unchanged.  `nrm` is the oracle value for `Math.sqrt (dot a a)`. -/
def normalize (a : Vec3) (nrm : ℚ) : Vec3 :=
  if 0 < dot a a then scale a (1 / nrm) else a

end Vec3

/-- `IsLen v len` states that `len` is the value of `vec3.length v`,
i.e. the nonnegative square root of `v · v`. -/
def IsLen (v : Vec3) (len : ℚ) : Prop := 0 ≤ len ∧ len * len = Vec3.dot v v

instance (v : Vec3) (len : ℚ) : Decidable (IsLen v len) :=
  inferInstanceAs (Decidable (0 ≤ len ∧ len * len = Vec3.dot v v))

/-- One axis of a bounding box (a `{min, max}` record). -/
structure AxisRange where
  min : ℚ
  max : ℚ
deriving DecidableEq, Repr

/-- The record returned by `createBoundingRange` (identical in both drafts). -/
structure BoundingRange where
  x : AxisRange
  y : AxisRange
  z : AxisRange
deriving DecidableEq, Repr

/-- `createBoundingRange` of both Sphere drafts. -/
def createBoundingRange (minX maxX minY maxY minZ maxZ : ℚ) : BoundingRange :=
  ⟨⟨minX, maxX⟩, ⟨minY, maxY⟩, ⟨minZ, maxZ⟩⟩

namespace P3

/-- State of `src/unnamed/part_003`'s `Sphere`: the backing fields the class
stores (`_radius`, `radiusSq`, `_mass`, `_color`, `_position`, `_velocity`,
`_speed`, `speedSq`). -/
structure Sphere where
  _radius : ℚ
  radiusSq : ℚ
  _mass : ℚ
  _color : Vec3
  _position : Vec3
  _velocity : Vec3
  _speed : ℚ
  speedSq : ℚ
deriving DecidableEq, Repr

/-- `static get HALFCDRHO()` of part_003: `0.90438598515`. -/
def HALFCDRHO : ℚ := 90438598515 / 100000000000

/-- `static get GRAVITY()` of part_003: `9.81`. -/
def GRAVITY : ℚ := 981 / 100

/-- `set radius` of part_003: stores `_radius`, caches `radiusSq`, recomputes
`mass = radius * radius * 0.5` and the color triple
`(255*mass, 255*(1 - |1 - 2*mass|), 255*(1 - mass))` (no clamping). -/
def set_radius (s : Sphere) (radius : ℚ) : Sphere :=
  let mass := radius * radius * (1 / 2)
  let red := 255 * mass
  let green := 255 * (1 - |1 - 2 * mass|)
  let blue := 255 * (1 - mass)
  { s with _radius := radius, radiusSq := radius * radius,
           _mass := mass, _color := ⟨red, green, blue⟩ }

/-- `set speed` of part_003: `_speed = Math.max(speed, -speed)`,
`speedSq = this.speed * this.speed` (square of the stored speed). -/
def set_speed (s : Sphere) (speed : ℚ) : Sphere :=
  let sp := max speed (-speed)
  { s with _speed := sp, speedSq := sp * sp }

/-- `set velocity` of part_003: stores the vector, then assigns
`this.speed = vec3.length(this.velocity)`; `len` is the oracle for that
length. -/
def set_velocity (s : Sphere) (v : Vec3) (len : ℚ) : Sphere :=
  set_speed { s with _velocity := v } len

/-- `get dragForce` of part_003: magnitude `HALFCDRHO * speedSq * radiusSq`,
direction the negated normalized velocity, combined by `vec3.scale`. -/
def dragForce (s : Sphere) (nrm : ℚ) : Vec3 :=
  let force := HALFCDRHO * s.speedSq * s.radiusSq
  let direction := Vec3.normalize s._velocity nrm
  Vec3.scale (Vec3.negate direction) force

/-- `get gravityForce` of part_003: `(0, -1 * GRAVITY * mass, 0)`. -/
def gravityForce (s : Sphere) : Vec3 := ⟨0, -1 * GRAVITY * s._mass, 0⟩

/-- `get acceleration` of part_003: `(gravityForce + dragForce) * (1.0 / mass)`. -/
def acceleration (s : Sphere) (nrm : ℚ) : Vec3 :=
  Vec3.scale (Vec3.add (gravityForce s) (dragForce s nrm)) (1 / s._mass)

/-- `updateVelocity` of part_003: `velocity += acceleration * dt`, stored
through the velocity setter (`len1` is the length oracle for the new
velocity). -/
def updateVelocity (s : Sphere) (dt nrm len1 : ℚ) : Sphere :=
  let a := Vec3.scale (acceleration s nrm) dt
  set_velocity s (Vec3.add s._velocity a) len1

/-- `updatePosition` of part_003.  The source scales the very array returned
by `updateVelocity` in place (`vec3.scale(velocity, velocity, timeDelta)`), so
the STORED velocity ends up multiplied by `dt`, without going through the
velocity setter (the cached `_speed`/`speedSq` are not recomputed here). -/
def updatePosition (s : Sphere) (dt nrm len1 : ℚ) : Sphere :=
  let s1 := updateVelocity s dt nrm len1
  let scaled := Vec3.scale s1._velocity dt
  { s1 with _velocity := scaled, _position := Vec3.add s1._position scaled }

/-- `handleCollisions` of part_003: per-axis strict comparisons against the
inset bounds `min + radius`, `max - radius`; the first `y` branch multiplies
the y velocity by `-3`, every other branch by `-1`.  The clamped position and
reflected velocity are stored through the setters (`len2` is the length oracle
for the final velocity). -/
def handleCollisions (s : Sphere) (br : BoundingRange) (len2 : ℚ) : Sphere :=
  let xMin := br.x.min + s._radius
  let xMax := br.x.max - s._radius
  let yMin := br.y.min + s._radius
  let yMax := br.y.max - s._radius
  let zMin := br.z.min + s._radius
  let zMax := br.z.max - s._radius
  let x1 := if s._position.x < xMin then xMin else s._position.x
  let xV1 := if s._position.x < xMin then s._velocity.x * (-1) else s._velocity.x
  let x2 := if x1 > xMax then xMax else x1
  let xV2 := if x1 > xMax then xV1 * (-1) else xV1
  let y1 := if s._position.y < yMin then yMin else s._position.y
  let yV1 := if s._position.y < yMin then s._velocity.y * (-3) else s._velocity.y
  let y2 := if y1 > yMax then yMax else y1
  let yV2 := if y1 > yMax then yV1 * (-1) else yV1
  let z1 := if s._position.z < zMin then zMin else s._position.z
  let zV1 := if s._position.z < zMin then s._velocity.z * (-1) else s._velocity.z
  let z2 := if z1 > zMax then zMax else z1
  let zV2 := if z1 > zMax then zV1 * (-1) else zV1
  set_velocity { s with _position := ⟨x2, y2, z2⟩ } ⟨xV2, yV2, zV2⟩ len2

/-- `tick` of part_003: `updatePosition(dt)` then `handleCollisions(dt)` with
the default bounding range `createBoundingRange(-10, 10, -10, 10, -10, 10)`. -/
def tick (s : Sphere) (dt nrm len1 len2 : ℚ) : Sphere :=
  handleCollisions (updatePosition s dt nrm len1)
    (createBoundingRange (-10) 10 (-10) 10 (-10) 10) len2

/-- A fresh JS object before the constructor body runs (undefined backing
fields modelled as zeros; the constructor assigns every field). -/
def blank : Sphere := ⟨0, 0, 0, ⟨0, 0, 0⟩, ⟨0, 0, 0⟩, ⟨0, 0, 0⟩, 0, 0⟩

/-- Constructor of part_003: `this.radius = radius`, `this.speed = speed`,
`this.position = vec3.create()` then `vec3.random(this.position, 1 - radius)`
(in-place, modelled by the draw `rndPos`), `this.velocity = vec3.create()`
(through the setter, so `speed` is reset to `|0| = 0`) then
`vec3.random(this.velocity, speed)` (in place, bypassing the setter, modelled
by the draw `rndVel`). -/
def construct (radius speed : ℚ) (rndPos rndVel : Vec3) : Sphere :=
  let s := set_radius blank radius
  let s := set_speed s speed
  let s := { s with _position := ⟨0, 0, 0⟩ }
  let s := { s with _position := rndPos }
  let s := set_velocity s ⟨0, 0, 0⟩ 0
  { s with _velocity := rndVel }

end P3

namespace SJS

/-- State of `src/Sphere.js`'s `Sphere`: backing fields `_radius`,
`_position`, `_velocity`, `_speed`, `_mass`, `_color`. -/
structure Sphere where
  _radius : ℚ
  _position : Vec3
  _velocity : Vec3
  _speed : ℚ
  _mass : ℚ
  _color : Vec3
deriving DecidableEq, Repr

/-- `static get GRAVITY()` of Sphere.js: `-9.81`. -/
def GRAVITY : ℚ := -981 / 100

/-- `set radius` of Sphere.js: stores `_radius` and nothing else. -/
def set_radius (s : Sphere) (radius : ℚ) : Sphere := { s with _radius := radius }

/-- `set speed` of Sphere.js: `_speed = Math.max(speed, -speed)`. -/
def set_speed (s : Sphere) (speed : ℚ) : Sphere := { s with _speed := max speed (-speed) }

/-- `set velocity` of Sphere.js: stores the vector then assigns
`this.speed = vec3.length(this.velocity)` (`len` is the length oracle). -/
def set_velocity (s : Sphere) (v : Vec3) (len : ℚ) : Sphere :=
  set_speed { s with _velocity := v } len

/-- `get gravityForce` of Sphere.js: `(0, GRAVITY * mass, 0)`. -/
def gravityForce (s : Sphere) : Vec3 := ⟨0, GRAVITY * s._mass, 0⟩

/-- `get acceleration` of Sphere.js: `gravityForce * (1 / mass)` (no drag
force enters the acceleration in this draft). -/
def acceleration (s : Sphere) : Vec3 := Vec3.scale (gravityForce s) (1 / s._mass)

/-- `updateVelocity` of Sphere.js: the stored velocity is scaled by
`dragFactor(dt) = Math.pow(0.9, dt)` (oracle `df`), then `acceleration * dt`
is added; the result is stored through the velocity setter. -/
def updateVelocity (s : Sphere) (dt df len1 : ℚ) : Sphere :=
  let a := Vec3.scale (acceleration s) dt
  let v := Vec3.scale s._velocity df
  set_velocity s (Vec3.add v a) len1

/-- `updatePosition` of Sphere.js: unlike part_003 it CLONES the vector
returned by `updateVelocity` before scaling it by `dt`, so the stored velocity
is left at the updated value. -/
def updatePosition (s : Sphere) (dt df len1 : ℚ) : Sphere :=
  let s1 := updateVelocity s dt df len1
  let scaled := Vec3.scale s1._velocity dt
  { s1 with _position := Vec3.add s1._position scaled }

/-- `handleCollisions` of Sphere.js: per-axis NON-strict comparisons (`<=`,
`>=`) against the inset bounds; every branch multiplies the velocity component
by `-1`. -/
def handleCollisions (s : Sphere) (br : BoundingRange) (len2 : ℚ) : Sphere :=
  let xMin := br.x.min + s._radius
  let xMax := br.x.max - s._radius
  let yMin := br.y.min + s._radius
  let yMax := br.y.max - s._radius
  let zMin := br.z.min + s._radius
  let zMax := br.z.max - s._radius
  let x1 := if s._position.x ≤ xMin then xMin else s._position.x
  let xV1 := if s._position.x ≤ xMin then s._velocity.x * (-1) else s._velocity.x
  let x2 := if x1 ≥ xMax then xMax else x1
  let xV2 := if x1 ≥ xMax then xV1 * (-1) else xV1
  let y1 := if s._position.y ≤ yMin then yMin else s._position.y
  let yV1 := if s._position.y ≤ yMin then s._velocity.y * (-1) else s._velocity.y
  let y2 := if y1 ≥ yMax then yMax else y1
  let yV2 := if y1 ≥ yMax then yV1 * (-1) else yV1
  let z1 := if s._position.z ≤ zMin then zMin else s._position.z
  let zV1 := if s._position.z ≤ zMin then s._velocity.z * (-1) else s._velocity.z
  let z2 := if z1 ≥ zMax then zMax else z1
  let zV2 := if z1 ≥ zMax then zV1 * (-1) else zV1
  set_velocity { s with _position := ⟨x2, y2, z2⟩ } ⟨xV2, yV2, zV2⟩ len2

/-- `tick` of Sphere.js: `updatePosition(dt)` then `handleCollisions(dt)` with
the default bounding range `createBoundingRange(-10, 10, -10, 10, -10, 10)`. -/
def tick (s : Sphere) (dt df len1 len2 : ℚ) : Sphere :=
  handleCollisions (updatePosition s dt df len1)
    (createBoundingRange (-10) 10 (-10) 10 (-10) 10) len2

/-- A fresh JS object before the constructor body runs. -/
def blank : Sphere := ⟨0, ⟨0, 0, 0⟩, ⟨0, 0, 0⟩, 0, 0, ⟨0, 0, 0⟩⟩

/-- Constructor of Sphere.js: `this.radius = radius` (setter, stores only
`_radius`), `this.position = vec3.random(..., 10 - radius)` (draw `rndPos`),
`this.velocity = vec3.random(..., speed)` through the setter (draw `rndVel`,
length oracle `lenV`), `this.mass = 1`, `this.color` a random triple
(draw `colr`). -/
def construct (radius _speed : ℚ) (rndPos rndVel colr : Vec3) (lenV : ℚ) : Sphere :=
  let s := set_radius blank radius
  let s := { s with _position := rndPos }
  let s := set_velocity s rndVel lenV
  let s := { s with _mass := 1 }
  { s with _color := colr }

end SJS

namespace PE

/-- State of `src/unnamed/part_000`'s `PhysicsEngine`: the `_sphereList`
backing field. -/
structure PhysicsEngine where
  _sphereList : List P3.Sphere

/-- `addSphere(toAdd)`: pushes the sphere onto the list. -/
def addSphere (e : PhysicsEngine) (toAdd : P3.Sphere) : PhysicsEngine :=
  ⟨e._sphereList ++ [toAdd]⟩

/-- `resetSpheres()`: replaces the list with a fresh empty list. -/
def resetSpheres (_e : PhysicsEngine) : PhysicsEngine := ⟨[]⟩

/-- `tick(timeDelta)`: `sphereList.forEach(sphere => sphere.tick(timeDelta))`;
`step` stands for the per-sphere `Sphere.tick timeDelta` together with its
square-root oracle arguments. -/
def tick (e : PhysicsEngine) (step : P3.Sphere → P3.Sphere) : PhysicsEngine :=
  ⟨e._sphereList.map step⟩

end PE

/-- Concrete part_003 sphere: radius 1 assigned through the radius setter on a
fresh object (mass `1/2`, zero position and velocity). -/
def p3unit : P3.Sphere := P3.set_radius P3.blank 1

/-- Concrete part_003 sphere: radius 11 assigned through the radius setter
(its inset interval in the default box is empty). -/
def p3big : P3.Sphere := P3.set_radius P3.blank 11

/-- Concrete part_003 sphere: radius 1, resting at `(0, -5, 0)`. -/
def p3drop : P3.Sphere := { p3unit with _position := ⟨0, -5, 0⟩ }

/-- Concrete Sphere.js sphere built by the constructor with radius 1 and zero
velocity (mass 1). -/
def sjsunit : SJS.Sphere := SJS.construct 1 0 ⟨0, 0, 0⟩ ⟨0, 0, 0⟩ ⟨1, 1, 1⟩ 0

/-- Concrete Sphere.js sphere sitting on the y-min face `y = -9` with a
downward/inward velocity. -/
def sjsdrop : SJS.Sphere := ⟨1, ⟨0, -9, 0⟩, ⟨2, -5, 0⟩, 0, 1, ⟨1, 1, 1⟩⟩

/-- Concrete Sphere.js sphere resting exactly on the x-min and y-min inset
faces `x = y = -9` with velocity `(3, 4, 0)`. -/
def c10t : SJS.Sphere := ⟨1, ⟨-9, -9, 0⟩, ⟨3, 4, 0⟩, 5, 1, ⟨1, 1, 1⟩⟩

section ClampHelpers

/-- Outcome of one non-strict clamp-and-reflect axis (Sphere.js shape):
velocity characterization. -/
lemma reflectLe (px vx lo hi : ℚ) (h : lo < hi) :
    (if (if px ≤ lo then lo else px) ≥ hi then (if px ≤ lo then vx * (-1) else vx) * (-1)
      else if px ≤ lo then vx * (-1) else vx) =
    if px ≤ lo ∨ hi ≤ px then -vx else vx := by
  by_cases h1 : px ≤ lo
  · have h2 : ¬ ((if px ≤ lo then lo else px) ≥ hi) := by
      rw [if_pos h1]; exact not_le.mpr h
    rw [if_neg h2, if_pos h1, if_pos (Or.inl h1)]; ring
  · by_cases h2 : hi ≤ px
    · have h3 : (if px ≤ lo then lo else px) ≥ hi := by rw [if_neg h1]; exact h2
      rw [if_pos h3, if_neg h1, if_pos (Or.inr h2)]; ring
    · have h3 : ¬ ((if px ≤ lo then lo else px) ≥ hi) := by rw [if_neg h1]; exact h2
      rw [if_neg h3, if_neg h1, if_neg (by push_neg; exact ⟨not_le.mp h1, not_le.mp h2⟩)]

/-- Outcome of one non-strict clamp-and-reflect axis (Sphere.js shape):
the resulting position component stays inside `[lo, hi]`. -/
lemma clampLe (px lo hi : ℚ) (h : lo ≤ hi) :
    lo ≤ (if (if px ≤ lo then lo else px) ≥ hi then hi else if px ≤ lo then lo else px) ∧
    (if (if px ≤ lo then lo else px) ≥ hi then hi else if px ≤ lo then lo else px) ≤ hi := by
  by_cases h1 : px ≤ lo
  · by_cases h2 : (if px ≤ lo then lo else px) ≥ hi
    · rw [if_pos h2]; exact ⟨h, le_refl hi⟩
    · rw [if_neg h2, if_pos h1]; exact ⟨le_refl lo, h⟩
  · by_cases h2 : (if px ≤ lo then lo else px) ≥ hi
    · rw [if_pos h2]; exact ⟨h, le_refl hi⟩
    · rw [if_neg h2, if_neg h1]
      rw [if_neg h1] at h2
      exact ⟨le_of_not_le h1, le_of_not_le h2⟩

/-- Outcome of one strict clamp-and-reflect axis (part_003 x/z shape):
velocity characterization. -/
lemma reflectLt (px vx lo hi : ℚ) (h : lo < hi) :
    (if (if px < lo then lo else px) > hi then (if px < lo then vx * (-1) else vx) * (-1)
      else if px < lo then vx * (-1) else vx) =
    if px < lo ∨ hi < px then -vx else vx := by
  by_cases h1 : px < lo
  · have h2 : ¬ ((if px < lo then lo else px) > hi) := by
      rw [if_pos h1]; exact not_lt.mpr (le_of_lt h)
    rw [if_neg h2, if_pos h1, if_pos (Or.inl h1)]; ring
  · by_cases h2 : hi < px
    · have h3 : (if px < lo then lo else px) > hi := by rw [if_neg h1]; exact h2
      rw [if_pos h3, if_neg h1, if_pos (Or.inr h2)]; ring
    · have h3 : ¬ ((if px < lo then lo else px) > hi) := by rw [if_neg h1]; exact h2
      rw [if_neg h3, if_neg h1, if_neg (by push_neg; exact ⟨not_lt.mp h1, not_lt.mp h2⟩)]

/-- Outcome of the strict y axis of part_003 (the floor branch multiplies by
`-3` instead of `-1`): velocity characterization. -/
lemma reflectLtY (px vx lo hi : ℚ) (h : lo < hi) :
    (if (if px < lo then lo else px) > hi then (if px < lo then vx * (-3) else vx) * (-1)
      else if px < lo then vx * (-3) else vx) =
    if px < lo then vx * (-3) else if hi < px then -vx else vx := by
  by_cases h1 : px < lo
  · have h2 : ¬ ((if px < lo then lo else px) > hi) := by
      rw [if_pos h1]; exact not_lt.mpr (le_of_lt h)
    rw [if_neg h2, if_pos h1, if_pos h1]
  · by_cases h2 : hi < px
    · have h3 : (if px < lo then lo else px) > hi := by rw [if_neg h1]; exact h2
      rw [if_pos h3, if_neg h1, if_neg h1, if_pos h2]; ring
    · have h3 : ¬ ((if px < lo then lo else px) > hi) := by rw [if_neg h1]; exact h2
      rw [if_neg h3, if_neg h1, if_neg h1, if_neg h2]

/-- Outcome of one strict clamp-and-reflect axis (part_003 shape): the
resulting position component stays inside `[lo, hi]`. -/
lemma clampLt (px lo hi : ℚ) (h : lo ≤ hi) :
    lo ≤ (if (if px < lo then lo else px) > hi then hi else if px < lo then lo else px) ∧
    (if (if px < lo then lo else px) > hi then hi else if px < lo then lo else px) ≤ hi := by
  by_cases h2 : (if px < lo then lo else px) > hi
  · rw [if_pos h2]; exact ⟨h, le_refl hi⟩
  · rw [if_neg h2]
    by_cases h1 : px < lo
    · rw [if_pos h1]; exact ⟨le_refl lo, h⟩
    · rw [if_neg h1]
      rw [if_neg h1] at h2
      exact ⟨not_lt.mp h1, not_lt.mp h2⟩

/-- Exact per-axis position outcome of one non-strict clamp axis (Sphere.js
shape). -/
lemma clampLeChar (px lo hi : ℚ) (h : lo < hi) :
    (if (if px ≤ lo then lo else px) ≥ hi then hi else if px ≤ lo then lo else px) =
    if px ≤ lo then lo else if hi ≤ px then hi else px := by
  by_cases h1 : px ≤ lo
  · have h2 : ¬ ((if px ≤ lo then lo else px) ≥ hi) := by
      rw [if_pos h1]; exact not_le.mpr h
    rw [if_neg h2, if_pos h1, if_pos h1]
  · by_cases h2 : hi ≤ px
    · have h3 : (if px ≤ lo then lo else px) ≥ hi := by rw [if_neg h1]; exact h2
      rw [if_pos h3, if_neg h1, if_pos h2]
    · have h3 : ¬ ((if px ≤ lo then lo else px) ≥ hi) := by rw [if_neg h1]; exact h2
      rw [if_neg h3, if_neg h1, if_neg h1, if_neg h2]

/-- Scaling a negated vector equals scaling by the negated scalar. -/
lemma Vec3.scale_negate (a : Vec3) (c : ℚ) :
    Vec3.scale (Vec3.negate a) c = Vec3.scale a (-c) := by
  simp only [Vec3.scale, Vec3.negate, Vec3.mk.injEq]
  refine ⟨by ring, by ring, by ring⟩

/-- A rational vector whose dot product with itself vanishes is the zero
vector. -/
lemma Vec3.eq_zero_of_dot_self (v : Vec3) (h : Vec3.dot v v = 0) :
    v = ⟨0, 0, 0⟩ := by
  obtain ⟨x, y, z⟩ := v
  simp only [Vec3.dot] at h
  have hx : x * x = 0 := le_antisymm (by nlinarith [mul_self_nonneg y, mul_self_nonneg z])
    (mul_self_nonneg x)
  have hy : y * y = 0 := le_antisymm (by nlinarith [mul_self_nonneg x, mul_self_nonneg z])
    (mul_self_nonneg y)
  have hz : z * z = 0 := le_antisymm (by nlinarith [mul_self_nonneg x, mul_self_nonneg y])
    (mul_self_nonneg z)
  simp only [Vec3.mk.injEq]
  exact ⟨mul_self_eq_zero.mp hx, mul_self_eq_zero.mp hy, mul_self_eq_zero.mp hz⟩

end ClampHelpers

namespace SJS

/-- Per-axis velocity outcome of Sphere.js `handleCollisions` (x axis). -/
lemma sjs_hc_velocity_x (s : Sphere) (br : BoundingRange) (len2 : ℚ)
    (h : br.x.min + s._radius < br.x.max - s._radius) :
    (handleCollisions s br len2)._velocity.x =
      if s._position.x ≤ br.x.min + s._radius ∨ br.x.max - s._radius ≤ s._position.x
      then -s._velocity.x else s._velocity.x := by
  simp only [handleCollisions, set_velocity, set_speed]
  exact reflectLe _ _ _ _ h

/-- Per-axis velocity outcome of Sphere.js `handleCollisions` (y axis). -/
lemma sjs_hc_velocity_y (s : Sphere) (br : BoundingRange) (len2 : ℚ)
    (h : br.y.min + s._radius < br.y.max - s._radius) :
    (handleCollisions s br len2)._velocity.y =
      if s._position.y ≤ br.y.min + s._radius ∨ br.y.max - s._radius ≤ s._position.y
      then -s._velocity.y else s._velocity.y := by
  simp only [handleCollisions, set_velocity, set_speed]
  exact reflectLe _ _ _ _ h

/-- Per-axis velocity outcome of Sphere.js `handleCollisions` (z axis). -/
lemma sjs_hc_velocity_z (s : Sphere) (br : BoundingRange) (len2 : ℚ)
    (h : br.z.min + s._radius < br.z.max - s._radius) :
    (handleCollisions s br len2)._velocity.z =
      if s._position.z ≤ br.z.min + s._radius ∨ br.z.max - s._radius ≤ s._position.z
      then -s._velocity.z else s._velocity.z := by
  simp only [handleCollisions, set_velocity, set_speed]
  exact reflectLe _ _ _ _ h

/-- The position stored by Sphere.js `handleCollisions` lies inside the inset
interval on the x axis (when that interval is nonempty). -/
lemma sjs_hc_position_x (s : Sphere) (br : BoundingRange) (len2 : ℚ)
    (h : br.x.min + s._radius ≤ br.x.max - s._radius) :
    br.x.min + s._radius ≤ (handleCollisions s br len2)._position.x ∧
    (handleCollisions s br len2)._position.x ≤ br.x.max - s._radius := by
  simp only [handleCollisions, set_velocity, set_speed]
  exact clampLe _ _ _ h

/-- The position stored by Sphere.js `handleCollisions` lies inside the inset
interval on the y axis (when that interval is nonempty). -/
lemma sjs_hc_position_y (s : Sphere) (br : BoundingRange) (len2 : ℚ)
    (h : br.y.min + s._radius ≤ br.y.max - s._radius) :
    br.y.min + s._radius ≤ (handleCollisions s br len2)._position.y ∧
    (handleCollisions s br len2)._position.y ≤ br.y.max - s._radius := by
  simp only [handleCollisions, set_velocity, set_speed]
  exact clampLe _ _ _ h

/-- The position stored by Sphere.js `handleCollisions` lies inside the inset
interval on the z axis (when that interval is nonempty). -/
lemma sjs_hc_position_z (s : Sphere) (br : BoundingRange) (len2 : ℚ)
    (h : br.z.min + s._radius ≤ br.z.max - s._radius) :
    br.z.min + s._radius ≤ (handleCollisions s br len2)._position.z ∧
    (handleCollisions s br len2)._position.z ≤ br.z.max - s._radius := by
  simp only [handleCollisions, set_velocity, set_speed]
  exact clampLe _ _ _ h

/-- `updatePosition` leaves the radius untouched. -/
lemma sjs_updatePosition_radius (s : Sphere) (dt df len1 : ℚ) :
    (updatePosition s dt df len1)._radius = s._radius := rfl

end SJS

namespace P3

/-- Per-axis velocity outcome of part_003 `handleCollisions` (x axis). -/
lemma p3_hc_velocity_x (s : Sphere) (br : BoundingRange) (len2 : ℚ)
    (h : br.x.min + s._radius < br.x.max - s._radius) :
    (handleCollisions s br len2)._velocity.x =
      if s._position.x < br.x.min + s._radius ∨ br.x.max - s._radius < s._position.x
      then -s._velocity.x else s._velocity.x := by
  simp only [handleCollisions, set_velocity, set_speed]
  exact reflectLt _ _ _ _ h

/-- Per-axis velocity outcome of part_003 `handleCollisions` (y axis): the
floor branch multiplies by `-3`. -/
lemma p3_hc_velocity_y (s : Sphere) (br : BoundingRange) (len2 : ℚ)
    (h : br.y.min + s._radius < br.y.max - s._radius) :
    (handleCollisions s br len2)._velocity.y =
      if s._position.y < br.y.min + s._radius then s._velocity.y * (-3)
      else if br.y.max - s._radius < s._position.y then -s._velocity.y
      else s._velocity.y := by
  simp only [handleCollisions, set_velocity, set_speed]
  exact reflectLtY _ _ _ _ h

/-- Per-axis velocity outcome of part_003 `handleCollisions` (z axis). -/
lemma p3_hc_velocity_z (s : Sphere) (br : BoundingRange) (len2 : ℚ)
    (h : br.z.min + s._radius < br.z.max - s._radius) :
    (handleCollisions s br len2)._velocity.z =
      if s._position.z < br.z.min + s._radius ∨ br.z.max - s._radius < s._position.z
      then -s._velocity.z else s._velocity.z := by
  simp only [handleCollisions, set_velocity, set_speed]
  exact reflectLt _ _ _ _ h

/-- The position stored by part_003 `handleCollisions` lies inside the inset
interval on the x axis (when that interval is nonempty). -/
lemma p3_hc_position_x (s : Sphere) (br : BoundingRange) (len2 : ℚ)
    (h : br.x.min + s._radius ≤ br.x.max - s._radius) :
    br.x.min + s._radius ≤ (handleCollisions s br len2)._position.x ∧
    (handleCollisions s br len2)._position.x ≤ br.x.max - s._radius := by
  simp only [handleCollisions, set_velocity, set_speed]
  exact clampLt _ _ _ h

/-- The position stored by part_003 `handleCollisions` lies inside the inset
interval on the y axis (when that interval is nonempty). -/
lemma p3_hc_position_y (s : Sphere) (br : BoundingRange) (len2 : ℚ)
    (h : br.y.min + s._radius ≤ br.y.max - s._radius) :
    br.y.min + s._radius ≤ (handleCollisions s br len2)._position.y ∧
    (handleCollisions s br len2)._position.y ≤ br.y.max - s._radius := by
  simp only [handleCollisions, set_velocity, set_speed]
  exact clampLt _ _ _ h

/-- The position stored by part_003 `handleCollisions` lies inside the inset
interval on the z axis (when that interval is nonempty). -/
lemma p3_hc_position_z (s : Sphere) (br : BoundingRange) (len2 : ℚ)
    (h : br.z.min + s._radius ≤ br.z.max - s._radius) :
    br.z.min + s._radius ≤ (handleCollisions s br len2)._position.z ∧
    (handleCollisions s br len2)._position.z ≤ br.z.max - s._radius := by
  simp only [handleCollisions, set_velocity, set_speed]
  exact clampLt _ _ _ h

/-- `updatePosition` leaves the radius untouched. -/
lemma p3_updatePosition_radius (s : Sphere) (dt nrm len1 : ℚ) :
    (updatePosition s dt nrm len1)._radius = s._radius := rfl

end P3

namespace SJS

/-- Exact per-axis position outcome of Sphere.js `handleCollisions` (x axis),
for a nonempty inset interval. -/
lemma sjs_hc_position_x_char (s : Sphere) (br : BoundingRange) (len2 : ℚ)
    (h : br.x.min + s._radius < br.x.max - s._radius) :
    (handleCollisions s br len2)._position.x =
      if s._position.x ≤ br.x.min + s._radius then br.x.min + s._radius
      else if br.x.max - s._radius ≤ s._position.x then br.x.max - s._radius
      else s._position.x := by
  simp only [handleCollisions, set_velocity, set_speed]
  exact clampLeChar _ _ _ h

end SJS

/-- Claim C9: `resetSpheres()` empties the particle list (count 0), and a
subsequent `tick`/step on the emptied engine completes and changes nothing,
whatever per-sphere step function (i.e. whatever `dt` and oracles) is used. -/
theorem c9_reset_then_step (e : PE.PhysicsEngine) (step : P3.Sphere → P3.Sphere) :
    (PE.resetSpheres e)._sphereList.length = 0 ∧
    PE.tick (PE.resetSpheres e) step = PE.resetSpheres e ∧
    (PE.tick (PE.resetSpheres e) step)._sphereList.length = 0 :=
  ⟨rfl, rfl, rfl⟩

/-- Claim C5 (counterexample): the Sphere.js draft cited by the claim does NOT
recompute `mass = 0.5 * r^2` on radius assignment: its constructor with
radius 2 sets `mass = 1` (not `2`), and its radius setter leaves the mass
unchanged. -/
theorem c5_counterexample :
    (SJS.construct 2 5 ⟨0, 0, 0⟩ ⟨3, 4, 0⟩ ⟨1, 1, 1⟩ 5)._mass = 1 ∧
    ((1 : ℚ) ≠ 2 * 2 * (1 / 2)) ∧
    (SJS.set_radius (SJS.construct 2 5 ⟨0, 0, 0⟩ ⟨3, 4, 0⟩ ⟨1, 1, 1⟩ 5) 3)._mass = 1 ∧
    ((1 : ℚ) ≠ 3 * 3 * (1 / 2)) := by
  refine ⟨rfl, by norm_num, rfl, by norm_num⟩

/-- Claim C5 (amended): in the part_003 Sphere every radius assignment
(constructor and `set radius`) recomputes `mass = 0.5 * r^2`; in Sphere.js the
constructor instead fixes `mass = 1` and the radius setter does not touch the
mass. -/
theorem c5_mass_amended (r speed l : ℚ) (pos vel colr : Vec3)
    (s : P3.Sphere) (t : SJS.Sphere) :
    (P3.set_radius s r)._mass = r * r * (1 / 2) ∧
    (P3.construct r speed pos vel)._mass = r * r * (1 / 2) ∧
    (SJS.construct r speed pos vel colr l)._mass = 1 ∧
    (SJS.set_radius t r)._mass = t._mass :=
  ⟨rfl, rfl, rfl, rfl⟩

/-- Claim C7 (counterexample): assigning a non-positive radius is accepted
silently — no InvalidParameter condition exists in either draft.  `set radius`
with `-1` stores `_radius = -1` and (in part_003) recomputes `mass = 1/2` as
if nothing were wrong. -/
theorem c7_counterexample :
    (P3.set_radius P3.blank (-1))._radius = -1 ∧
    (P3.set_radius P3.blank (-1))._mass = 1 / 2 ∧
    (SJS.set_radius SJS.blank (-1))._radius = -1 := by
  refine ⟨rfl, by norm_num [P3.set_radius], rfl⟩

/-- Claim C7 (amended): radius assignment performs no validation at all: for
EVERY rational `r` (including `r ≤ 0`) both setters store `r` unchanged (and
part_003 recomputes mass/color from it); all the embedded operations are total
functions of their inputs. -/
theorem c7_no_validation (r : ℚ) (s : P3.Sphere) (t : SJS.Sphere) :
    (P3.set_radius s r)._radius = r ∧
    (P3.set_radius s r)._mass = r * r * (1 / 2) ∧
    (SJS.set_radius t r)._radius = r :=
  ⟨rfl, rfl, rfl⟩

/-- Claim C6 (counterexample): the color components are NOT clamped to
`[0, 255]`: `set radius 2` on part_003 yields mass 2 and color
`(510, -510, -255)`, whose green component is far outside `[0, 255]`. -/
theorem c6_counterexample :
    (P3.set_radius P3.blank 2)._color = ⟨510, -510, -255⟩ ∧
    ¬ (0 ≤ (P3.set_radius P3.blank 2)._color.y ∧
        (P3.set_radius P3.blank 2)._color.y ≤ 255) := by
  constructor
  · show (⟨255 * (2 * 2 * (1 / 2)), 255 * (1 - |1 - 2 * (2 * 2 * (1 / 2))|),
          255 * (1 - 2 * 2 * (1 / 2))⟩ : Vec3) = ⟨510, -510, -255⟩
    norm_num
  · show ¬ (0 ≤ (255 : ℚ) * (1 - |1 - 2 * (2 * 2 * (1 / 2))|) ∧
        (255 : ℚ) * (1 - |1 - 2 * (2 * 2 * (1 / 2))|) ≤ 255)
    norm_num

/-- Claim C6 (amended): after `set radius r` the color is exactly
`(255*m, 255*(1 - |1 - 2m|), 255*(1 - m))` with `m = 0.5 r^2`, computed with
NO clamping; the components all lie within `[0, 255]` exactly when the
resulting mass lies in `[0, 1]`, i.e. when `r^2 ≤ 2`. -/
theorem c6_color_amended (s : P3.Sphere) (r : ℚ) :
    (P3.set_radius s r)._color =
      ⟨255 * (r * r * (1 / 2)), 255 * (1 - |1 - 2 * (r * r * (1 / 2))|),
        255 * (1 - r * r * (1 / 2))⟩ ∧
    (r * r ≤ 2 →
      (0 ≤ (P3.set_radius s r)._color.x ∧ (P3.set_radius s r)._color.x ≤ 255) ∧
      (0 ≤ (P3.set_radius s r)._color.y ∧ (P3.set_radius s r)._color.y ≤ 255) ∧
      (0 ≤ (P3.set_radius s r)._color.z ∧ (P3.set_radius s r)._color.z ≤ 255)) := by
  have hc : (P3.set_radius s r)._color =
      ⟨255 * (r * r * (1 / 2)), 255 * (1 - |1 - 2 * (r * r * (1 / 2))|),
        255 * (1 - r * r * (1 / 2))⟩ := rfl
  refine ⟨hc, fun h => ?_⟩
  have hm0 : 0 ≤ r * r := mul_self_nonneg r
  have habs : |1 - 2 * (r * r * (1 / 2))| ≤ 1 := by
    rw [abs_le]; constructor <;> nlinarith
  have habs0 : 0 ≤ |1 - 2 * (r * r * (1 / 2))| := abs_nonneg _
  rw [hc]
  refine ⟨⟨?_, ?_⟩, ⟨?_, ?_⟩, ⟨?_, ?_⟩⟩ <;> dsimp only <;> nlinarith

/-- Witness for `c6_color_amended` at `r = 1` (mass `1/2`): the hypothesis
`r * r ≤ 2` holds and the color components land in `[0, 255]`. -/
theorem c6_color_amended_witness :
    ((1 : ℚ) * 1 ≤ 2) ∧
    (0 ≤ (P3.set_radius P3.blank 1)._color.y ∧
      (P3.set_radius P3.blank 1)._color.y ≤ 255) :=
  ⟨by norm_num, ((c6_color_amended P3.blank 1).2 (by norm_num)).2.1⟩

/-- Claim C1 (counterexample): a freshly constructed part_003 sphere is a
reachable state on which the claimed drag formula fails: the constructor's
in-place `vec3.random` bypasses the velocity setter, leaving the cached
`_speed`/`speedSq` stale at 0, so `dragForce` returns the zero vector although
`-HALFCDRHO * |v|^2 * r^2 * normalize(v)` is nonzero for the drawn velocity
`v = (3, 4, 0)` (`|v| = 5`, radius 1).  Moreover the other draft cited by the
claim, Sphere.js, computes no such drag force at all: its acceleration is the
pure gravity vector and is unchanged when the velocity is zeroed. -/
theorem c1_counterexample :
    (P3.construct 1 7 ⟨0, 0, 0⟩ ⟨3, 4, 0⟩)._velocity = ⟨3, 4, 0⟩ ∧
    (P3.construct 1 7 ⟨0, 0, 0⟩ ⟨3, 4, 0⟩)._speed = 0 ∧
    P3.dragForce (P3.construct 1 7 ⟨0, 0, 0⟩ ⟨3, 4, 0⟩) 5 = ⟨0, 0, 0⟩ ∧
    Vec3.scale (Vec3.normalize ⟨3, 4, 0⟩ 5)
      (-(P3.HALFCDRHO * (5 * 5) * (1 * 1))) ≠ ⟨0, 0, 0⟩ ∧
    SJS.acceleration sjsdrop = ⟨0, -(981 / 100), 0⟩ ∧
    SJS.acceleration (SJS.set_velocity sjsdrop ⟨0, 0, 0⟩ 0) =
      SJS.acceleration sjsdrop := by
  refine ⟨rfl, ?_, ?_, ?_, ?_, rfl⟩
  · norm_num [P3.construct, P3.set_radius, P3.set_speed, P3.set_velocity, P3.blank]
  · norm_num [P3.construct, P3.set_radius, P3.set_speed, P3.set_velocity, P3.blank,
      P3.dragForce, Vec3.normalize, Vec3.dot, Vec3.scale, Vec3.negate, P3.HALFCDRHO]
  · norm_num [Vec3.normalize, Vec3.dot, Vec3.scale, P3.HALFCDRHO, Vec3.mk.injEq]
  · norm_num [SJS.acceleration, SJS.gravityForce, Vec3.scale, sjsdrop, SJS.GRAVITY]

/-- Claim C1 (amended): in part_003, whenever the cached fields are coherent
(`radiusSq = radius^2`, `speedSq = speed^2`, `speed = |velocity|`, nonzero
mass) — which every SETTER assignment establishes, but the constructor's
in-place random write does not — the drag force equals
`-HALFCDRHO * speed^2 * radius^2 * normalize(velocity)`, and whenever
`speed = 0` the drag force is the zero vector and the acceleration the
well-defined finite `(0, -GRAVITY, 0)`.  A freshly constructed part_003
sphere carries the stale cache `speed = 0` and therefore computes zero drag
whatever velocity was drawn for it.  The Sphere.js draft computes no drag
force at all: its acceleration depends only on the mass (it is unchanged
under any velocity or radius assignment), and the velocity its
`updateVelocity` produces is likewise independent of the radius — drag there
is only the multiplicative `dragFactor(dt) = 0.9^dt` damping (oracle `df`). -/
theorem c1_drag_amended (s : P3.Sphere) (t : SJS.Sphere)
    (v rndPos rndVel : Vec3) (r sp nrm l r2 dt df len1 : ℚ)
    (hr : s.radiusSq = s._radius * s._radius)
    (hsp : s.speedSq = s._speed * s._speed)
    (hlen : IsLen s._velocity s._speed)
    (hm : s._mass ≠ 0) :
    (P3.dragForce s s._speed =
      Vec3.scale (Vec3.normalize s._velocity s._speed)
        (-(P3.HALFCDRHO * (s._speed * s._speed) * (s._radius * s._radius)))) ∧
    (s._speed = 0 →
      P3.dragForce s s._speed = ⟨0, 0, 0⟩ ∧
      P3.acceleration s s._speed = ⟨0, -P3.GRAVITY, 0⟩) ∧
    ((P3.construct r sp rndPos rndVel)._speed = 0 ∧
      (P3.construct r sp rndPos rndVel)._velocity = rndVel ∧
      P3.dragForce (P3.construct r sp rndPos rndVel) nrm = ⟨0, 0, 0⟩) ∧
    (SJS.acceleration (SJS.set_velocity t v l) = SJS.acceleration t ∧
      SJS.acceleration (SJS.set_radius t r2) = SJS.acceleration t ∧
      (SJS.updateVelocity (SJS.set_radius t r2) dt df len1)._velocity =
        (SJS.updateVelocity t dt df len1)._velocity) := by
  have hdrag : P3.dragForce s s._speed =
      Vec3.scale (Vec3.normalize s._velocity s._speed)
        (-(P3.HALFCDRHO * (s._speed * s._speed) * (s._radius * s._radius))) := by
    show Vec3.scale (Vec3.negate (Vec3.normalize s._velocity s._speed))
        (P3.HALFCDRHO * s.speedSq * s.radiusSq) = _
    rw [Vec3.scale_negate, hsp, hr]
  refine ⟨hdrag, fun h0 => ?_, ?_, rfl, rfl, rfl⟩
  · have hv : s._velocity = ⟨0, 0, 0⟩ := by
      apply Vec3.eq_zero_of_dot_self
      have h2 := hlen.2
      rw [h0] at h2
      linarith [h2]
    have hdrag0 : P3.dragForce s s._speed = ⟨0, 0, 0⟩ := by
      rw [hdrag, hv, h0]
      simp [Vec3.normalize, Vec3.dot, Vec3.scale]
    refine ⟨hdrag0, ?_⟩
    show Vec3.scale (Vec3.add (P3.gravityForce s) (P3.dragForce s s._speed))
        (1 / s._mass) = _
    rw [hdrag0]
    simp only [P3.gravityForce, Vec3.add, Vec3.scale, Vec3.mk.injEq]
    refine ⟨by ring, ?_, by ring⟩
    field_simp
  · have hsp0 : (P3.construct r sp rndPos rndVel)._speed = 0 := by
      show max (0 : ℚ) (-0) = 0
      norm_num
    have hsq : (P3.construct r sp rndPos rndVel).speedSq = 0 := by
      show max (0 : ℚ) (-0) * max (0 : ℚ) (-0) = 0
      norm_num
    refine ⟨hsp0, rfl, ?_⟩
    show Vec3.scale
        (Vec3.negate (Vec3.normalize (P3.construct r sp rndPos rndVel)._velocity nrm))
        (P3.HALFCDRHO * (P3.construct r sp rndPos rndVel).speedSq *
          (P3.construct r sp rndPos rndVel).radiusSq) = ⟨0, 0, 0⟩
    rw [hsq]
    simp [Vec3.scale]

/-- Witness for `c1_drag_amended` at the radius-1 zero-velocity sphere (for
the invariant-conditioned conjuncts) and the fresh constructor draw
`(3, 4, 0)` with `nrm = 5` (for the stale-cache conjunct). -/
theorem c1_drag_amended_witness :
    (p3unit.radiusSq = p3unit._radius * p3unit._radius ∧
      p3unit.speedSq = p3unit._speed * p3unit._speed ∧
      IsLen p3unit._velocity p3unit._speed ∧
      p3unit._mass ≠ 0 ∧ p3unit._speed = 0) ∧
    (P3.dragForce p3unit p3unit._speed = ⟨0, 0, 0⟩ ∧
      P3.acceleration p3unit p3unit._speed = ⟨0, -P3.GRAVITY, 0⟩) ∧
    ((P3.construct 1 7 ⟨0, 0, 0⟩ ⟨3, 4, 0⟩)._speed = 0 ∧
      (P3.construct 1 7 ⟨0, 0, 0⟩ ⟨3, 4, 0⟩)._velocity = ⟨3, 4, 0⟩ ∧
      P3.dragForce (P3.construct 1 7 ⟨0, 0, 0⟩ ⟨3, 4, 0⟩) 5 = ⟨0, 0, 0⟩) := by
  have h := c1_drag_amended p3unit sjsunit ⟨0, 0, 0⟩ ⟨0, 0, 0⟩ ⟨3, 4, 0⟩ 1 7 5 0 0 0 1 0
    (by norm_num [p3unit, P3.set_radius, P3.blank])
    (by norm_num [p3unit, P3.set_radius, P3.blank])
    (by norm_num [p3unit, P3.set_radius, P3.blank, IsLen, Vec3.dot])
    (by norm_num [p3unit, P3.set_radius, P3.blank])
  exact ⟨by norm_num [p3unit, P3.set_radius, P3.blank, IsLen, Vec3.dot],
    h.2.1 (by norm_num [p3unit, P3.set_radius, P3.blank]),
    h.2.2.1⟩

/-- Claim C8: after `set velocity v` the cached speed equals `|v|` (the
oracle `len` constrained to be the Euclidean magnitude), and the invariant
`speed = |velocity|` is re-established by every operation that assigns the
velocity through the setter: `set velocity` itself, `updateVelocity`, and the
final velocity assignment of `tick` (similarly for the Sphere.js setter). -/
theorem c8_speed_invariant (s : P3.Sphere) (t : SJS.Sphere) (v : Vec3)
    (len dt nrm len1 len2 : ℚ)
    (hv : IsLen v len)
    (h1 : IsLen (P3.updateVelocity s dt nrm len1)._velocity len1)
    (h2 : IsLen (P3.tick s dt nrm len1 len2)._velocity len2) :
    (P3.set_velocity s v len)._speed = len ∧
    IsLen (P3.set_velocity s v len)._velocity (P3.set_velocity s v len)._speed ∧
    IsLen (P3.updateVelocity s dt nrm len1)._velocity
      (P3.updateVelocity s dt nrm len1)._speed ∧
    IsLen (P3.tick s dt nrm len1 len2)._velocity (P3.tick s dt nrm len1 len2)._speed ∧
    (SJS.set_velocity t v len)._speed = len := by
  have hmax : ∀ a : ℚ, 0 ≤ a → max a (-a) = a := fun a ha => max_eq_left (by linarith)
  have e1 : (P3.set_velocity s v len)._speed = max len (-len) := rfl
  have e2 : (P3.updateVelocity s dt nrm len1)._speed = max len1 (-len1) := rfl
  have e3 : (P3.tick s dt nrm len1 len2)._speed = max len2 (-len2) := rfl
  have e4 : (SJS.set_velocity t v len)._speed = max len (-len) := rfl
  have e5 : (P3.set_velocity s v len)._velocity = v := rfl
  refine ⟨?_, ?_, ?_, ?_, ?_⟩
  · rw [e1, hmax len hv.1]
  · rw [e5, e1, hmax len hv.1]; exact hv
  · rw [e2, hmax len1 h1.1]; exact h1
  · rw [e3, hmax len2 h2.1]; exact h2
  · rw [e4, hmax len hv.1]

/-- Witness for `c8_speed_invariant`: `v = (3, 4, 0)` with `|v| = 5`, and the
degenerate `dt = 0` step on the radius-1 sphere whose updated and final
velocities are both the zero vector with length oracle `0`. -/
theorem c8_speed_invariant_witness :
    (IsLen (⟨3, 4, 0⟩ : Vec3) 5 ∧
      IsLen (P3.updateVelocity p3unit 0 0 0)._velocity 0 ∧
      IsLen (P3.tick p3unit 0 0 0 0)._velocity 0) ∧
    (P3.set_velocity p3unit ⟨3, 4, 0⟩ 5)._speed = 5 :=
  ⟨⟨by norm_num [IsLen, Vec3.dot],
    by norm_num [IsLen, Vec3.dot, P3.updateVelocity, P3.set_velocity, P3.set_speed,
      P3.acceleration, P3.gravityForce, P3.dragForce, Vec3.normalize, Vec3.add,
      Vec3.scale, Vec3.negate, p3unit, P3.set_radius, P3.blank, P3.HALFCDRHO, P3.GRAVITY],
    by norm_num [IsLen, Vec3.dot, P3.tick, P3.handleCollisions, P3.updatePosition,
      P3.updateVelocity, P3.set_velocity, P3.set_speed, P3.acceleration,
      P3.gravityForce, P3.dragForce, Vec3.normalize, Vec3.add, Vec3.scale, Vec3.negate,
      p3unit, P3.set_radius, P3.blank, P3.HALFCDRHO, P3.GRAVITY, createBoundingRange]⟩,
    (c8_speed_invariant p3unit sjsunit ⟨3, 4, 0⟩ 5 0 0 0 0
      (by norm_num [IsLen, Vec3.dot])
      (by norm_num [IsLen, Vec3.dot, P3.updateVelocity, P3.set_velocity, P3.set_speed,
        P3.acceleration, P3.gravityForce, P3.dragForce, Vec3.normalize, Vec3.add,
        Vec3.scale, Vec3.negate, p3unit, P3.set_radius, P3.blank, P3.HALFCDRHO, P3.GRAVITY])
      (by norm_num [IsLen, Vec3.dot, P3.tick, P3.handleCollisions, P3.updatePosition,
        P3.updateVelocity, P3.set_velocity, P3.set_speed, P3.acceleration,
        P3.gravityForce, P3.dragForce, Vec3.normalize, Vec3.add, Vec3.scale, Vec3.negate,
        p3unit, P3.set_radius, P3.blank, P3.HALFCDRHO, P3.GRAVITY, createBoundingRange])).1⟩

/-- Claim C2 (code bug witnessed): for the radius-1 part_003 sphere at rest at
the origin and `dt = 1/2`, `updateVelocity` correctly performs the
semi-implicit Euler velocity step `v + a*dt = (0, -981/200, 0)` and the
displacement does use that new velocity (`position = (0, -981/400, 0)`), but
the velocity STORED after the tick is `(0, -981/400, 0) = (v + a*dt) * dt` —
the in-place `vec3.scale` in `updatePosition` multiplied the stored velocity
by `dt` — which differs from the `v + a*dt` demanded by the claim. -/
theorem c2_aliasing_eval :
    (P3.updateVelocity p3unit (1/2) 0 (981/200))._velocity = ⟨0, -(981/200), 0⟩ ∧
    (P3.tick p3unit (1/2) 0 (981/200) (981/400))._position = ⟨0, -(981/400), 0⟩ ∧
    (P3.tick p3unit (1/2) 0 (981/200) (981/400))._velocity = ⟨0, -(981/400), 0⟩ ∧
    (P3.tick p3unit (1/2) 0 (981/200) (981/400))._velocity ≠ ⟨0, -(981/200), 0⟩ := by
  refine ⟨?_, ?_, ?_, ?_⟩ <;>
    norm_num [P3.tick, P3.handleCollisions, P3.updatePosition, P3.updateVelocity,
      P3.set_velocity, P3.set_speed, P3.acceleration, P3.gravityForce, P3.dragForce,
      Vec3.normalize, Vec3.dot, Vec3.add, Vec3.scale, Vec3.negate,
      p3unit, P3.set_radius, P3.blank, P3.HALFCDRHO, P3.GRAVITY, createBoundingRange,
      Vec3.mk.injEq]

/-- Claim C3 (counterexample): for a particle of radius 11 the inset interval
`[min+radius, max-radius] = [1, -1]` of the default box is empty, and after a
tick the x position component is `-1`, which does not lie within that
(empty) interval — the claim fails as stated for such a particle. -/
theorem c3_counterexample :
    (P3.tick p3big 0 0 0 0)._position.x = -1 ∧
    ¬ (-10 + p3big._radius ≤ (P3.tick p3big 0 0 0 0)._position.x ∧
        (P3.tick p3big 0 0 0 0)._position.x ≤ 10 - p3big._radius) := by
  constructor <;>
    norm_num [P3.tick, P3.handleCollisions, P3.updatePosition, P3.updateVelocity,
      P3.set_velocity, P3.set_speed, P3.acceleration, P3.gravityForce, P3.dragForce,
      Vec3.normalize, Vec3.dot, Vec3.add, Vec3.scale, Vec3.negate,
      p3big, P3.set_radius, P3.blank, P3.HALFCDRHO, P3.GRAVITY, createBoundingRange]

/-- Claim C3 (amended): PROVIDED the inset interval is nonempty
(`radius ≤ 10` for the default box), after `tick` every position component of
either draft lies within `[-10 + radius, 10 - radius]` inclusive. -/
theorem c3_boundary_amended (s : P3.Sphere) (t : SJS.Sphere)
    (dt nrm len1 len2 dt2 df len3 len4 : ℚ)
    (hs : s._radius ≤ 10) (ht : t._radius ≤ 10) :
    (-10 + s._radius ≤ (P3.tick s dt nrm len1 len2)._position.x ∧
      (P3.tick s dt nrm len1 len2)._position.x ≤ 10 - s._radius) ∧
    (-10 + s._radius ≤ (P3.tick s dt nrm len1 len2)._position.y ∧
      (P3.tick s dt nrm len1 len2)._position.y ≤ 10 - s._radius) ∧
    (-10 + s._radius ≤ (P3.tick s dt nrm len1 len2)._position.z ∧
      (P3.tick s dt nrm len1 len2)._position.z ≤ 10 - s._radius) ∧
    (-10 + t._radius ≤ (SJS.tick t dt2 df len3 len4)._position.x ∧
      (SJS.tick t dt2 df len3 len4)._position.x ≤ 10 - t._radius) ∧
    (-10 + t._radius ≤ (SJS.tick t dt2 df len3 len4)._position.y ∧
      (SJS.tick t dt2 df len3 len4)._position.y ≤ 10 - t._radius) ∧
    (-10 + t._radius ≤ (SJS.tick t dt2 df len3 len4)._position.z ∧
      (SJS.tick t dt2 df len3 len4)._position.z ≤ 10 - t._radius) := by
  simp only [P3.tick, SJS.tick]
  have hs1 : (-10 : ℚ) + s._radius ≤ 10 - s._radius := by linarith
  have ht1 : (-10 : ℚ) + t._radius ≤ 10 - t._radius := by linarith
  exact ⟨P3.p3_hc_position_x (P3.updatePosition s dt nrm len1) _ len2 hs1,
    P3.p3_hc_position_y (P3.updatePosition s dt nrm len1) _ len2 hs1,
    P3.p3_hc_position_z (P3.updatePosition s dt nrm len1) _ len2 hs1,
    SJS.sjs_hc_position_x (SJS.updatePosition t dt2 df len3) _ len4 ht1,
    SJS.sjs_hc_position_y (SJS.updatePosition t dt2 df len3) _ len4 ht1,
    SJS.sjs_hc_position_z (SJS.updatePosition t dt2 df len3) _ len4 ht1⟩

/-- Witness for `c3_boundary_amended` at the concrete radius-1 spheres: both
radii are at most 10 and, e.g., the part_003 y component after a `dt = 1` tick
is clamped into `[-9, 9]`. -/
theorem c3_boundary_amended_witness :
    (p3unit._radius ≤ 10 ∧ sjsunit._radius ≤ 10) ∧
    (-10 + p3unit._radius ≤ (P3.tick p3unit 1 0 (981/100) (981/100))._position.y ∧
      (P3.tick p3unit 1 0 (981/100) (981/100))._position.y ≤ 10 - p3unit._radius) :=
  ⟨⟨by norm_num [p3unit, P3.set_radius, P3.blank],
    by norm_num [sjsunit, SJS.construct, SJS.set_radius, SJS.set_velocity,
      SJS.set_speed, SJS.blank]⟩,
    (c3_boundary_amended p3unit sjsunit 1 0 (981/100) (981/100) 0 1 0 0
      (by norm_num [p3unit, P3.set_radius, P3.blank])
      (by norm_num [sjsunit, SJS.construct, SJS.set_radius, SJS.set_velocity,
        SJS.set_speed, SJS.blank])).2.1⟩

/-- Claim C4 (counterexample): a radius-1 part_003 sphere dropped from
`(0, -5, 0)` with `dt = 1` penetrates the floor (`y = -14.81 < -9`), its
y velocity immediately before clamping is `-9.81`, yet after the tick the
y velocity is `29.43` — the floor branch multiplies by `-3`, so the clamped
axis's velocity is NOT exactly negated (magnitude not preserved). -/
theorem c4_counterexample :
    (P3.updatePosition p3drop 1 0 (981/100))._position.y = -(1481/100) ∧
    (P3.updatePosition p3drop 1 0 (981/100))._position.y < -10 + p3drop._radius ∧
    (P3.updatePosition p3drop 1 0 (981/100))._velocity.y = -(981/100) ∧
    (P3.tick p3drop 1 0 (981/100) (2943/100))._velocity.y = 2943/100 ∧
    ((2943/100 : ℚ) ≠ -(-(981/100))) := by
  refine ⟨?_, ?_, ?_, ?_, by norm_num⟩ <;>
    norm_num [P3.tick, P3.handleCollisions, P3.updatePosition, P3.updateVelocity,
      P3.set_velocity, P3.set_speed, P3.acceleration, P3.gravityForce, P3.dragForce,
      Vec3.normalize, Vec3.dot, Vec3.add, Vec3.scale, Vec3.negate,
      p3drop, p3unit, P3.set_radius, P3.blank, P3.HALFCDRHO, P3.GRAVITY,
      createBoundingRange]

/-- Claim C4 (amended): for a strictly nonempty inset interval
(`radius < 10`), in Sphere.js a tick's collision pass negates exactly the
velocity components of the axes whose post-move position reaches or crosses an
inset bound and leaves the others unchanged; in part_003 the same holds for
the x, z and y-max branches, but the y-min (floor) branch multiplies the
y velocity by `-3` instead of `-1`. -/
theorem c4_reflection_amended (t : SJS.Sphere) (s : P3.Sphere)
    (dt df len1 len2 dt2 nrm len3 len4 : ℚ)
    (ht : t._radius < 10) (hs : s._radius < 10) :
    ((SJS.tick t dt df len1 len2)._velocity.x =
      if (SJS.updatePosition t dt df len1)._position.x ≤ -10 + t._radius ∨
          10 - t._radius ≤ (SJS.updatePosition t dt df len1)._position.x
      then -(SJS.updatePosition t dt df len1)._velocity.x
      else (SJS.updatePosition t dt df len1)._velocity.x) ∧
    ((SJS.tick t dt df len1 len2)._velocity.y =
      if (SJS.updatePosition t dt df len1)._position.y ≤ -10 + t._radius ∨
          10 - t._radius ≤ (SJS.updatePosition t dt df len1)._position.y
      then -(SJS.updatePosition t dt df len1)._velocity.y
      else (SJS.updatePosition t dt df len1)._velocity.y) ∧
    ((SJS.tick t dt df len1 len2)._velocity.z =
      if (SJS.updatePosition t dt df len1)._position.z ≤ -10 + t._radius ∨
          10 - t._radius ≤ (SJS.updatePosition t dt df len1)._position.z
      then -(SJS.updatePosition t dt df len1)._velocity.z
      else (SJS.updatePosition t dt df len1)._velocity.z) ∧
    ((P3.tick s dt2 nrm len3 len4)._velocity.x =
      if (P3.updatePosition s dt2 nrm len3)._position.x < -10 + s._radius ∨
          10 - s._radius < (P3.updatePosition s dt2 nrm len3)._position.x
      then -(P3.updatePosition s dt2 nrm len3)._velocity.x
      else (P3.updatePosition s dt2 nrm len3)._velocity.x) ∧
    ((P3.tick s dt2 nrm len3 len4)._velocity.y =
      if (P3.updatePosition s dt2 nrm len3)._position.y < -10 + s._radius
      then (P3.updatePosition s dt2 nrm len3)._velocity.y * (-3)
      else if 10 - s._radius < (P3.updatePosition s dt2 nrm len3)._position.y
      then -(P3.updatePosition s dt2 nrm len3)._velocity.y
      else (P3.updatePosition s dt2 nrm len3)._velocity.y) ∧
    ((P3.tick s dt2 nrm len3 len4)._velocity.z =
      if (P3.updatePosition s dt2 nrm len3)._position.z < -10 + s._radius ∨
          10 - s._radius < (P3.updatePosition s dt2 nrm len3)._position.z
      then -(P3.updatePosition s dt2 nrm len3)._velocity.z
      else (P3.updatePosition s dt2 nrm len3)._velocity.z) := by
  simp only [SJS.tick, P3.tick]
  have ht1 : (createBoundingRange (-10) 10 (-10) 10 (-10) 10).x.min +
      (SJS.updatePosition t dt df len1)._radius <
      (createBoundingRange (-10) 10 (-10) 10 (-10) 10).x.max -
      (SJS.updatePosition t dt df len1)._radius := by
    simp only [createBoundingRange, SJS.sjs_updatePosition_radius]
    linarith
  have hs1 : (createBoundingRange (-10) 10 (-10) 10 (-10) 10).x.min +
      (P3.updatePosition s dt2 nrm len3)._radius <
      (createBoundingRange (-10) 10 (-10) 10 (-10) 10).x.max -
      (P3.updatePosition s dt2 nrm len3)._radius := by
    simp only [createBoundingRange, P3.p3_updatePosition_radius]
    linarith
  refine ⟨?_, ?_, ?_, ?_, ?_, ?_⟩
  · simpa only [createBoundingRange, SJS.sjs_updatePosition_radius] using
      SJS.sjs_hc_velocity_x (SJS.updatePosition t dt df len1)
        (createBoundingRange (-10) 10 (-10) 10 (-10) 10) len2 ht1
  · simpa only [createBoundingRange, SJS.sjs_updatePosition_radius] using
      SJS.sjs_hc_velocity_y (SJS.updatePosition t dt df len1)
        (createBoundingRange (-10) 10 (-10) 10 (-10) 10) len2 ht1
  · simpa only [createBoundingRange, SJS.sjs_updatePosition_radius] using
      SJS.sjs_hc_velocity_z (SJS.updatePosition t dt df len1)
        (createBoundingRange (-10) 10 (-10) 10 (-10) 10) len2 ht1
  · simpa only [createBoundingRange, P3.p3_updatePosition_radius] using
      P3.p3_hc_velocity_x (P3.updatePosition s dt2 nrm len3)
        (createBoundingRange (-10) 10 (-10) 10 (-10) 10) len4 hs1
  · simpa only [createBoundingRange, P3.p3_updatePosition_radius] using
      P3.p3_hc_velocity_y (P3.updatePosition s dt2 nrm len3)
        (createBoundingRange (-10) 10 (-10) 10 (-10) 10) len4 hs1
  · simpa only [createBoundingRange, P3.p3_updatePosition_radius] using
      P3.p3_hc_velocity_z (P3.updatePosition s dt2 nrm len3)
        (createBoundingRange (-10) 10 (-10) 10 (-10) 10) len4 hs1

/-- Witness for `c4_reflection_amended`: for the Sphere.js sphere sitting on
the floor face with velocity `(2, -5, 0)` a `dt = 0` tick negates exactly the
y component (giving `5`, x stays `2`), and for the part_003 sphere dropped
onto the floor the y velocity becomes `-9.81 * -3 = 29.43`. -/
theorem c4_reflection_amended_witness :
    (sjsdrop._radius < 10 ∧ p3drop._radius < 10) ∧
    (SJS.tick sjsdrop 0 1 0 0)._velocity.y = 5 ∧
    (SJS.tick sjsdrop 0 1 0 0)._velocity.x = 2 ∧
    (P3.tick p3drop 1 0 (981/100) (2943/100))._velocity.y = 2943/100 := by
  have h := c4_reflection_amended sjsdrop p3drop 0 1 0 0 1 0 (981/100) (2943/100)
    (by norm_num [sjsdrop]) (by norm_num [p3drop, p3unit, P3.set_radius, P3.blank])
  refine ⟨⟨by norm_num [sjsdrop], by norm_num [p3drop, p3unit, P3.set_radius, P3.blank]⟩,
    ?_, ?_, ?_⟩
  · rw [h.2.1]
    norm_num [SJS.updatePosition, SJS.updateVelocity, SJS.set_velocity, SJS.set_speed,
      SJS.acceleration, SJS.gravityForce, Vec3.add, Vec3.scale, sjsdrop, SJS.GRAVITY]
  · rw [h.1]
    norm_num [SJS.updatePosition, SJS.updateVelocity, SJS.set_velocity, SJS.set_speed,
      SJS.acceleration, SJS.gravityForce, Vec3.add, Vec3.scale, sjsdrop, SJS.GRAVITY]
  · rw [h.2.2.2.2.1]
    norm_num [P3.updatePosition, P3.updateVelocity, P3.set_velocity, P3.set_speed,
      P3.acceleration, P3.gravityForce, P3.dragForce, Vec3.normalize, Vec3.dot,
      Vec3.add, Vec3.scale, Vec3.negate, p3drop, p3unit, P3.set_radius, P3.blank,
      P3.HALFCDRHO, P3.GRAVITY]

namespace SJS

/-- Exact per-axis position outcome of Sphere.js `handleCollisions` (y axis),
for a nonempty inset interval. -/
lemma sjs_hc_position_y_char (s : Sphere) (br : BoundingRange) (len2 : ℚ)
    (h : br.y.min + s._radius < br.y.max - s._radius) :
    (handleCollisions s br len2)._position.y =
      if s._position.y ≤ br.y.min + s._radius then br.y.min + s._radius
      else if br.y.max - s._radius ≤ s._position.y then br.y.max - s._radius
      else s._position.y := by
  simp only [handleCollisions, set_velocity, set_speed]
  exact clampLeChar _ _ _ h

/-- Exact per-axis position outcome of Sphere.js `handleCollisions` (z axis),
for a nonempty inset interval. -/
lemma sjs_hc_position_z_char (s : Sphere) (br : BoundingRange) (len2 : ℚ)
    (h : br.z.min + s._radius < br.z.max - s._radius) :
    (handleCollisions s br len2)._position.z =
      if s._position.z ≤ br.z.min + s._radius then br.z.min + s._radius
      else if br.z.max - s._radius ≤ s._position.z then br.z.max - s._radius
      else s._position.z := by
  simp only [handleCollisions, set_velocity, set_speed]
  exact clampLeChar _ _ _ h

end SJS

/-- Claim C10: because Sphere.js's boundary comparisons are non-strict, a tick
whose post-move position component lands EXACTLY on an inset bound (no
crossing) still negates that axis's velocity component and keeps the position
on the bound — on every axis and both faces — and consequently a particle
resting on the x-min face (`position.x = -10 + radius`, `velocity.x = 0`)
stays on the face with its x velocity negated (`-0 = 0`) on every tick. -/
theorem c10_nonstrict_face (t : SJS.Sphere) (dt df len1 len2 : ℚ)
    (ht : t._radius < 10) :
    ((SJS.updatePosition t dt df len1)._position.x = -10 + t._radius →
      (SJS.tick t dt df len1 len2)._velocity.x =
        -(SJS.updatePosition t dt df len1)._velocity.x ∧
      (SJS.tick t dt df len1 len2)._position.x = -10 + t._radius) ∧
    ((SJS.updatePosition t dt df len1)._position.x = 10 - t._radius →
      (SJS.tick t dt df len1 len2)._velocity.x =
        -(SJS.updatePosition t dt df len1)._velocity.x ∧
      (SJS.tick t dt df len1 len2)._position.x = 10 - t._radius) ∧
    ((SJS.updatePosition t dt df len1)._position.y = -10 + t._radius →
      (SJS.tick t dt df len1 len2)._velocity.y =
        -(SJS.updatePosition t dt df len1)._velocity.y ∧
      (SJS.tick t dt df len1 len2)._position.y = -10 + t._radius) ∧
    ((SJS.updatePosition t dt df len1)._position.y = 10 - t._radius →
      (SJS.tick t dt df len1 len2)._velocity.y =
        -(SJS.updatePosition t dt df len1)._velocity.y ∧
      (SJS.tick t dt df len1 len2)._position.y = 10 - t._radius) ∧
    ((SJS.updatePosition t dt df len1)._position.z = -10 + t._radius →
      (SJS.tick t dt df len1 len2)._velocity.z =
        -(SJS.updatePosition t dt df len1)._velocity.z ∧
      (SJS.tick t dt df len1 len2)._position.z = -10 + t._radius) ∧
    ((SJS.updatePosition t dt df len1)._position.z = 10 - t._radius →
      (SJS.tick t dt df len1 len2)._velocity.z =
        -(SJS.updatePosition t dt df len1)._velocity.z ∧
      (SJS.tick t dt df len1 len2)._position.z = 10 - t._radius) ∧
    (t._position.x = -10 + t._radius ∧ t._velocity.x = 0 →
      (SJS.tick t dt df len1 len2)._velocity.x = 0 ∧
      (SJS.tick t dt df len1 len2)._position.x = -10 + t._radius) := by
  have hlo : (-10 : ℚ) + t._radius < 10 - t._radius := by linarith
  have ht1 : (createBoundingRange (-10) 10 (-10) 10 (-10) 10).x.min +
      (SJS.updatePosition t dt df len1)._radius <
      (createBoundingRange (-10) 10 (-10) 10 (-10) 10).x.max -
      (SJS.updatePosition t dt df len1)._radius := by
    simp only [createBoundingRange, SJS.sjs_updatePosition_radius]
    linarith
  simp only [SJS.tick]
  have hvx : (SJS.handleCollisions (SJS.updatePosition t dt df len1)
      (createBoundingRange (-10) 10 (-10) 10 (-10) 10) len2)._velocity.x =
      if (SJS.updatePosition t dt df len1)._position.x ≤ -10 + t._radius ∨
          10 - t._radius ≤ (SJS.updatePosition t dt df len1)._position.x
      then -(SJS.updatePosition t dt df len1)._velocity.x
      else (SJS.updatePosition t dt df len1)._velocity.x := by
    simpa only [createBoundingRange, SJS.sjs_updatePosition_radius] using
      SJS.sjs_hc_velocity_x (SJS.updatePosition t dt df len1)
        (createBoundingRange (-10) 10 (-10) 10 (-10) 10) len2 ht1
  have hvy : (SJS.handleCollisions (SJS.updatePosition t dt df len1)
      (createBoundingRange (-10) 10 (-10) 10 (-10) 10) len2)._velocity.y =
      if (SJS.updatePosition t dt df len1)._position.y ≤ -10 + t._radius ∨
          10 - t._radius ≤ (SJS.updatePosition t dt df len1)._position.y
      then -(SJS.updatePosition t dt df len1)._velocity.y
      else (SJS.updatePosition t dt df len1)._velocity.y := by
    simpa only [createBoundingRange, SJS.sjs_updatePosition_radius] using
      SJS.sjs_hc_velocity_y (SJS.updatePosition t dt df len1)
        (createBoundingRange (-10) 10 (-10) 10 (-10) 10) len2 ht1
  have hvz : (SJS.handleCollisions (SJS.updatePosition t dt df len1)
      (createBoundingRange (-10) 10 (-10) 10 (-10) 10) len2)._velocity.z =
      if (SJS.updatePosition t dt df len1)._position.z ≤ -10 + t._radius ∨
          10 - t._radius ≤ (SJS.updatePosition t dt df len1)._position.z
      then -(SJS.updatePosition t dt df len1)._velocity.z
      else (SJS.updatePosition t dt df len1)._velocity.z := by
    simpa only [createBoundingRange, SJS.sjs_updatePosition_radius] using
      SJS.sjs_hc_velocity_z (SJS.updatePosition t dt df len1)
        (createBoundingRange (-10) 10 (-10) 10 (-10) 10) len2 ht1
  have hpx : (SJS.handleCollisions (SJS.updatePosition t dt df len1)
      (createBoundingRange (-10) 10 (-10) 10 (-10) 10) len2)._position.x =
      if (SJS.updatePosition t dt df len1)._position.x ≤ -10 + t._radius
      then -10 + t._radius
      else if 10 - t._radius ≤ (SJS.updatePosition t dt df len1)._position.x
      then 10 - t._radius
      else (SJS.updatePosition t dt df len1)._position.x := by
    simpa only [createBoundingRange, SJS.sjs_updatePosition_radius] using
      SJS.sjs_hc_position_x_char (SJS.updatePosition t dt df len1)
        (createBoundingRange (-10) 10 (-10) 10 (-10) 10) len2 ht1
  have hpy : (SJS.handleCollisions (SJS.updatePosition t dt df len1)
      (createBoundingRange (-10) 10 (-10) 10 (-10) 10) len2)._position.y =
      if (SJS.updatePosition t dt df len1)._position.y ≤ -10 + t._radius
      then -10 + t._radius
      else if 10 - t._radius ≤ (SJS.updatePosition t dt df len1)._position.y
      then 10 - t._radius
      else (SJS.updatePosition t dt df len1)._position.y := by
    simpa only [createBoundingRange, SJS.sjs_updatePosition_radius] using
      SJS.sjs_hc_position_y_char (SJS.updatePosition t dt df len1)
        (createBoundingRange (-10) 10 (-10) 10 (-10) 10) len2 ht1
  have hpz : (SJS.handleCollisions (SJS.updatePosition t dt df len1)
      (createBoundingRange (-10) 10 (-10) 10 (-10) 10) len2)._position.z =
      if (SJS.updatePosition t dt df len1)._position.z ≤ -10 + t._radius
      then -10 + t._radius
      else if 10 - t._radius ≤ (SJS.updatePosition t dt df len1)._position.z
      then 10 - t._radius
      else (SJS.updatePosition t dt df len1)._position.z := by
    simpa only [createBoundingRange, SJS.sjs_updatePosition_radius] using
      SJS.sjs_hc_position_z_char (SJS.updatePosition t dt df len1)
        (createBoundingRange (-10) 10 (-10) 10 (-10) 10) len2 ht1
  have hxmin : (SJS.updatePosition t dt df len1)._position.x = -10 + t._radius →
      (SJS.handleCollisions (SJS.updatePosition t dt df len1)
        (createBoundingRange (-10) 10 (-10) 10 (-10) 10) len2)._velocity.x =
        -(SJS.updatePosition t dt df len1)._velocity.x ∧
      (SJS.handleCollisions (SJS.updatePosition t dt df len1)
        (createBoundingRange (-10) 10 (-10) 10 (-10) 10) len2)._position.x =
        -10 + t._radius := by
    intro he
    constructor
    · rw [hvx, if_pos (Or.inl he.le)]
    · rw [hpx, if_pos he.le]
  refine ⟨hxmin, ?_, ?_, ?_, ?_, ?_, ?_⟩
  · intro he
    constructor
    · rw [hvx, if_pos (Or.inr he.symm.le)]
    · rw [hpx, if_neg (by rw [he]; exact not_le.mpr hlo), if_pos he.symm.le]
  · intro he
    constructor
    · rw [hvy, if_pos (Or.inl he.le)]
    · rw [hpy, if_pos he.le]
  · intro he
    constructor
    · rw [hvy, if_pos (Or.inr he.symm.le)]
    · rw [hpy, if_neg (by rw [he]; exact not_le.mpr hlo), if_pos he.symm.le]
  · intro he
    constructor
    · rw [hvz, if_pos (Or.inl he.le)]
    · rw [hpz, if_pos he.le]
  · intro he
    constructor
    · rw [hvz, if_pos (Or.inr he.symm.le)]
    · rw [hpz, if_neg (by rw [he]; exact not_le.mpr hlo), if_pos he.symm.le]
  · rintro ⟨hx, hv⟩
    have hvel0 : (SJS.updatePosition t dt df len1)._velocity.x =
        t._velocity.x * df + 0 * (1 / t._mass) * dt := rfl
    have h1 : (SJS.updatePosition t dt df len1)._velocity.x = 0 := by
      rw [hvel0, hv]; ring
    have hpos0 : (SJS.updatePosition t dt df len1)._position.x =
        t._position.x + (SJS.updatePosition t dt df len1)._velocity.x * dt := rfl
    have h2 : (SJS.updatePosition t dt df len1)._position.x = -10 + t._radius := by
      rw [hpos0, h1, hx]; ring
    obtain ⟨hv', hp'⟩ := hxmin h2
    exact ⟨by rw [hv', h1, neg_zero], hp'⟩

/-- Witness for `c10_nonstrict_face`: the sphere resting exactly on the x-min
and y-min faces at `(-9, -9, 0)` with velocity `(3, 4, 0)` and `dt = 0` (no
motion at all, so nothing crosses any face) still gets both those velocity
components negated by the tick while staying on the faces. -/
theorem c10_nonstrict_face_witness :
    (c10t._radius < 10 ∧
      (SJS.updatePosition c10t 0 1 5)._position.x = -10 + c10t._radius ∧
      (SJS.updatePosition c10t 0 1 5)._position.y = -10 + c10t._radius) ∧
    ((SJS.tick c10t 0 1 5 5)._velocity.x = -3 ∧
      (SJS.tick c10t 0 1 5 5)._position.x = -9 ∧
      (SJS.tick c10t 0 1 5 5)._velocity.y = -4) := by
  have hx : (SJS.updatePosition c10t 0 1 5)._position.x = -10 + c10t._radius := by
    norm_num [SJS.updatePosition, SJS.updateVelocity, SJS.set_velocity, SJS.set_speed,
      SJS.acceleration, SJS.gravityForce, Vec3.add, Vec3.scale, c10t, SJS.GRAVITY]
  have hy : (SJS.updatePosition c10t 0 1 5)._position.y = -10 + c10t._radius := by
    norm_num [SJS.updatePosition, SJS.updateVelocity, SJS.set_velocity, SJS.set_speed,
      SJS.acceleration, SJS.gravityForce, Vec3.add, Vec3.scale, c10t, SJS.GRAVITY]
  have h := c10_nonstrict_face c10t 0 1 5 5 (by norm_num [c10t])
  refine ⟨⟨by norm_num [c10t], hx, hy⟩, ?_, ?_, ?_⟩
  · rw [(h.1 hx).1]
    norm_num [SJS.updatePosition, SJS.updateVelocity, SJS.set_velocity, SJS.set_speed,
      SJS.acceleration, SJS.gravityForce, Vec3.add, Vec3.scale, c10t, SJS.GRAVITY]
  · rw [(h.1 hx).2]
    norm_num [c10t]
  · rw [(h.2.2.1 hy).1]
    norm_num [SJS.updatePosition, SJS.updateVelocity, SJS.set_velocity, SJS.set_speed,
      SJS.acceleration, SJS.gravityForce, Vec3.add, Vec3.scale, c10t, SJS.GRAVITY]
